import Mathlib

/-!
Verification of the face-recognition decision pipeline of
`ReconocimientoFacial/face_recognition_app` (files
`face_recognition_model.py` and `views.py`).

Shallow embedding conventions:
* The external neural providers (FaceNet embedding, CNN classifier) are
  opaque; the decision engine is modelled as a function of the classifier's
  probability distribution, given as a `List ℚ` indexed by the label
  encoder's class indices (float arithmetic is modelled over `ℚ`).
* `np.argsort` (ascending, stable for the label-sized arrays this system
  sorts) is modelled as an insertion sort over index order with ties broken
  by ascending index, which is exactly the stable behaviour; the source's
  `[-3:][::-1]` slicing is `drop (n - 3)` followed by `reverse`.
* Python dicts returned by `predict` become the `AuthDecision` structure;
  the f-string rejection markers become structured `RejReason` values
  carrying the observed and required numbers.
* Paths where the Python code would raise (`top_3_indices[0]` on an empty
  prediction) return `none`.
-/

namespace FaceRec

/-- One entry of `top_predictions` (source dict keys `class`, `confidence`). -/
structure RankedPrediction where
  cls : String
  confidence : ℚ
deriving Repr, DecidableEq

/-- The rejection markers of `face_recognition_model.py` lines 126, 160, 163
and 172: the f-strings `confidence_too_low_{...}<{...}` and
`gap_too_small_{...}<{...}` are modelled structurally, carrying the observed
and required values they interpolate. -/
inductive RejReason where
  | confidence_too_low (observed required : ℚ)
  | gap_too_small (observed required : ℚ)
  | authorized
  | no_face_detected
deriving Repr, DecidableEq

/-- The dict returned by `FaceRecognitionSystem.predict`
(`face_recognition_model.py` lines 114-183). -/
structure AuthDecision where
  name : String
  confidence : ℚ
  confidence_gap : ℚ
  face_detected : Bool
  face_box : Option (Int × Int × Int × Int)
  authorized : Bool
  top_predictions : List RankedPrediction
  rejection_reasons : List RejReason
deriving Repr, DecidableEq

/-- The short-circuit decision of lines 117-127, returned when no face was
detected. -/
def noFaceDecision : AuthDecision :=
  { name := "No se detectó rostro"
    confidence := 0
    confidence_gap := 0
    face_detected := false
    face_box := none
    authorized := false
    top_predictions := []
    rejection_reasons := [RejReason.no_face_detected] }

/-- Comparison used by the `np.argsort(prediction)` model: ascending by
probability, ties broken by ascending index (the stable order on the
identity permutation input `range n`). -/
def argLe (p : List ℚ) (i j : Nat) : Prop :=
  p.getD i 0 < p.getD j 0 ∨ (p.getD i 0 = p.getD j 0 ∧ i ≤ j)

instance argLe_decidable (p : List ℚ) : DecidableRel (argLe p) := fun i j => by
  unfold argLe; infer_instance

instance argLe_total (p : List ℚ) : IsTotal Nat (argLe p) where
  total i j := by
    rcases lt_trichotomy (p.getD i 0) (p.getD j 0) with h | h | h
    · exact Or.inl (Or.inl h)
    · rcases Nat.le_total i j with hij | hij
      · exact Or.inl (Or.inr ⟨h, hij⟩)
      · exact Or.inr (Or.inr ⟨h.symm, hij⟩)
    · exact Or.inr (Or.inl h)

instance argLe_trans (p : List ℚ) : IsTrans Nat (argLe p) where
  trans i j k hij hjk := by
    rcases hij with h1 | ⟨h1, h1'⟩ <;> rcases hjk with h2 | ⟨h2, h2'⟩
    · exact Or.inl (h1.trans h2)
    · exact Or.inl (h2 ▸ h1)
    · exact Or.inl (h1 ▸ h2)
    · exact Or.inr ⟨h1.trans h2, h1'.trans h2'⟩

/-- Model of `np.argsort(prediction)` (line 137): the indices
`0, ..., n-1` sorted ascending by probability, stably. -/
def argsort (p : List ℚ) : List Nat :=
  List.insertionSort (argLe p) (List.range p.length)

/-- Model of `np.argsort(prediction)[-3:][::-1]` (line 137): the (at most)
three highest-probability indices, descending. -/
def topIndices (p : List ℚ) : List Nat :=
  ((argsort p).drop (p.length - 3)).reverse

/-- Lines 156-183 of `predict`: given the top-ranked label `topLabel`, the
built `top_predictions`, the face box and the computed `confidence` and
`confidence_gap`, apply the authorization criteria and assemble the
returned dict. -/
def decisionOf (topLabel : String) (top_predictions : List RankedPrediction)
    (box : Int × Int × Int × Int)
    (confidence confidence_gap threshold min_confidence_gap : ℚ) :
    AuthDecision :=
  let reasons :=
    (if confidence < threshold then
      [RejReason.confidence_too_low confidence threshold] else [])
    ++
    (if confidence_gap < min_confidence_gap then
      [RejReason.gap_too_small confidence_gap min_confidence_gap] else [])
  let authorized := reasons.isEmpty
  let name := if authorized then topLabel else "Desconocido"
  let rejection_reasons :=
    if authorized then [RejReason.authorized] else reasons
  { name := name
    confidence := confidence
    confidence_gap := confidence_gap
    face_detected := true
    face_box := some box
    authorized := authorized
    top_predictions := top_predictions
    rejection_reasons := rejection_reasons }

/-- The authorization core of `predict` (lines 129-183), as a function of
the label list `labels` (= `label_encoder.classes_`), the classifier output
`p`, the detected face box and the two thresholds.  Returns `none` where
the Python would raise `IndexError` (empty prediction vector). -/
def authorize (labels : List String) (p : List ℚ)
    (box : Int × Int × Int × Int) (threshold min_confidence_gap : ℚ) :
    Option AuthDecision :=
  match topIndices p with
  | [] => none
  | i0 :: rest =>
    let top_predictions := (i0 :: rest).map
      (fun i => RankedPrediction.mk (labels.getD i "") (p.getD i 0))
    let confidence := p.getD i0 0
    let confidence_gap :=
      match rest with
      | [] => confidence
      | i1 :: _ => p.getD i0 0 - p.getD i1 0
    some (decisionOf (labels.getD i0 "") top_predictions box
      confidence confidence_gap threshold min_confidence_gap)

/-- `FaceRecognitionSystem.predict` (lines 94-183).  The face-detection,
embedding and classification stages are external collaborators; their
composite outcome is the `detected` argument: `none` when
`detect_face` found no face, otherwise the face box together with the
classifier's probability vector for the crop. -/
def predict (labels : List String)
    (detected : Option ((Int × Int × Int × Int) × List ℚ))
    (threshold min_confidence_gap : ℚ) : Option AuthDecision :=
  match detected with
  | none => some noFaceDecision
  | some (box, p) => authorize labels p box threshold min_confidence_gap

/-- The call `system.predict(image, threshold=0.80, min_confidence_gap=0.20)`
of `views.py` line 102 (`recognize_face`), with the enrollment/login
thresholds. -/
def recognize_face_predict (labels : List String)
    (detected : Option ((Int × Int × Int × Int) × List ℚ)) :
    Option AuthDecision :=
  predict labels detected (80/100) (20/100)

/-- The call `system.predict(image, threshold=0.75)` of `views.py` line 174
(`verify_face_stream`): threshold 0.75, `min_confidence_gap` left at its
Python default `0.20`. -/
def verify_face_stream_predict (labels : List String)
    (detected : Option ((Int × Int × Int × Int) × List ℚ)) :
    Option AuthDecision :=
  predict labels detected (75/100) (20/100)

/-! ### FaceLocalizer crop (`detect_face`, lines 80-92) -/

/-- The slice bounds of the padded crop `img_rgb[top:bottom, left:right]`
computed at lines 81-87: `top = max(0, y - padding)`,
`left = max(0, x - padding)`, `bottom = min(H, y + h + padding)`,
`right = min(W, x + w + padding)` with `padding = 20`. -/
structure CropBounds where
  top : Int
  left : Int
  bottom : Int
  right : Int
deriving Repr, DecidableEq

/-- Lines 81-85 of `detect_face`: clamp the 20-pixel-padded box to the
frame of height `frameH` and width `frameW`. -/
def cropBounds (frameH frameW x y w h : Int) : CropBounds :=
  let padding : Int := 20
  { top := max 0 (y - padding)
    left := max 0 (x - padding)
    bottom := min frameH (y + h + padding)
    right := min frameW (x + w + padding) }

/-! ### ResultRenderer (`draw_result`, lines 185-244)

Mutation of numpy buffers is made explicit with a small heap of buffers:
`image.copy()` allocates a fresh buffer; every cv2 drawing call writes the
buffer it is handed.  The pixel-level effect of `cv2.putText` /
`cv2.rectangle` is external, so the two are opaque buffer transformers,
parameters of the model carrying the arguments the source passes them. -/

/-- A pixel buffer (contents opaque to the renderer logic). -/
abbrev Buf := List Nat

/-- A heap of buffers addressed by allocation index. -/
structure Heap where
  bufs : List Buf
deriving Repr, DecidableEq

/-- Read the buffer at address `i`. -/
def Heap.read (h : Heap) (i : Nat) : Buf := h.bufs.getD i []

/-- Overwrite the buffer at address `i` (a cv2 in-place drawing call). -/
def Heap.write (h : Heap) (i : Nat) (b : Buf) : Heap := ⟨h.bufs.set i b⟩

/-- `image.copy()`: allocate a fresh buffer holding `b`, returning its
address. -/
def Heap.alloc (h : Heap) (b : Buf) : Heap × Nat :=
  (⟨h.bufs ++ [b]⟩, h.bufs.length)

/-- The cv2 primitives used by `draw_result`, as opaque pure buffer
transformers: `putText text org color buf` and
`rectangle pt1 pt2 color thickness buf`; `fmtPercent` models the f-string
`f"Confianza: {confidence:.1%}"`. -/
structure DrawPrims where
  putText : String → Int × Int → Nat × Nat × Nat → Buf → Buf
  rectangle : Int × Int → Int × Int → Nat × Nat × Nat → Int → Buf → Buf
  fmtPercent : ℚ → String

/-- `FaceRecognitionSystem.draw_result` (lines 185-244).  `image` is the
address of the input frame in heap `h`; the result is the heap after the
call together with the address of the returned annotated buffer.  `none`
models the `TypeError` the Python raises when `face_detected` is true but
`face_box` is `None` (a combination `predict` never produces). -/
def draw_result (prims : DrawPrims) (h : Heap) (image : Nat)
    (result : AuthDecision) : Option (Heap × Nat) :=
  let (h1, imgCopy) := h.alloc (h.read image)
  if result.face_detected = false then
    let h2 := h1.write imgCopy
      (prims.putText result.name (10, 30) (0, 0, 255) (h1.read imgCopy))
    some (h2, imgCopy)
  else
    match result.face_box with
    | none => none
    | some (x, y, w, hh) =>
      let color := if result.authorized then (0, 255, 0) else (0, 165, 255)
      let h2 := h1.write imgCopy
        (prims.rectangle (x, y) (x + w, y + hh) color 2 (h1.read imgCopy))
      let text_y := if 40 < y then y - 10 else y + hh + 25
      let h3 := h2.write imgCopy
        (prims.rectangle (x, text_y - 25) (x + w, text_y + 5) color (-1)
          (h2.read imgCopy))
      let h4 := h3.write imgCopy
        (prims.putText result.name (x + 5, text_y - 10) (255, 255, 255)
          (h3.read imgCopy))
      let h5 := h4.write imgCopy
        (prims.putText (prims.fmtPercent result.confidence)
          (x + 5, text_y + 5) (255, 255, 255) (h4.read imgCopy))
      some (h5, imgCopy)

/-! ### Facts about the argsort model -/

theorem argsort_perm (p : List ℚ) :
    List.Perm (argsort p) (List.range p.length) :=
  List.perm_insertionSort (argLe p) (List.range p.length)

theorem argsort_sorted (p : List ℚ) : List.Sorted (argLe p) (argsort p) :=
  List.sorted_insertionSort (argLe p) (List.range p.length)

theorem argsort_length (p : List ℚ) : (argsort p).length = p.length := by
  simpa using (argsort_perm p).length_eq

theorem argsort_nodup (p : List ℚ) : (argsort p).Nodup :=
  (argsort_perm p).nodup_iff.mpr (List.nodup_range _)

theorem topIndices_length (p : List ℚ) :
    (topIndices p).length = min 3 p.length := by
  simp only [topIndices, List.length_reverse, List.length_drop, argsort_length]
  omega

theorem topIndices_sublist_argsort (p : List ℚ) :
    ∀ i ∈ topIndices p, i ∈ argsort p := by
  intro i hi
  simp only [topIndices, List.mem_reverse] at hi
  exact (List.drop_sublist _ _).mem hi

theorem topIndices_mem_lt (p : List ℚ) :
    ∀ i ∈ topIndices p, i < p.length := by
  intro i hi
  have := (argsort_perm p).mem_iff.mp (topIndices_sublist_argsort p i hi)
  simpa using this

theorem topIndices_nodup (p : List ℚ) : (topIndices p).Nodup :=
  List.nodup_reverse.mpr ((argsort_nodup p).sublist (List.drop_sublist _ _))

/-- The index list behind `top_predictions` is strictly descending in the
lexicographic order (probability descending, ties by index descending). -/
theorem topIndices_pairwise (p : List ℚ) :
    List.Pairwise
      (fun i j => p.getD j 0 < p.getD i 0 ∨
        (p.getD j 0 = p.getD i 0 ∧ j < i)) (topIndices p) := by
  have hsorted : List.Pairwise (argLe p) ((argsort p).drop (p.length - 3)) :=
    (argsort_sorted p).sublist (List.drop_sublist _ _)
  have hrev : List.Pairwise (fun i j => argLe p j i) (topIndices p) :=
    (List.pairwise_reverse).mpr hsorted
  have hne : List.Pairwise (fun i j : Nat => i ≠ j) (topIndices p) :=
    topIndices_nodup p
  refine (hrev.and hne).imp ?_
  rintro i j ⟨hle, hij⟩
  rcases hle with h | ⟨heq, hle⟩
  · exact Or.inl h
  · exact Or.inr ⟨heq, lt_of_le_of_ne hle (Ne.symm hij)⟩

theorem topIndices_ne_nil (p : List ℚ) (hp : p ≠ []) : topIndices p ≠ [] := by
  intro h
  have := topIndices_length p
  rw [h] at this
  simp only [List.length_nil] at this
  have : p.length = 0 := by omega
  exact hp (List.length_eq_zero.mp this)

/-! ### Facts about the decision core -/

theorem decisionOf_authorized_iff (n : String) (t : List RankedPrediction)
    (b : Int × Int × Int × Int) (c g th mg : ℚ) :
    ((decisionOf n t b c g th mg).authorized = true ↔
      (decisionOf n t b c g th mg).rejection_reasons =
        [RejReason.authorized]) ∧
    ((decisionOf n t b c g th mg).authorized = false →
      (decisionOf n t b c g th mg).rejection_reasons.length = 1 ∨
      (decisionOf n t b c g th mg).rejection_reasons.length = 2) := by
  by_cases hc : c < th <;> by_cases hg : g < mg <;>
    simp [decisionOf, hc, hg]

theorem decisionOf_gap_only (n : String) (t : List RankedPrediction)
    (b : Int × Int × Int × Int) (c g th mg : ℚ)
    (hc : th ≤ c) (hg : g < mg) :
    (decisionOf n t b c g th mg).authorized = false ∧
    (decisionOf n t b c g th mg).rejection_reasons =
      [RejReason.gap_too_small g mg] := by
  simp [decisionOf, not_lt.mpr hc, hg]

theorem decisionOf_gap_reject (n : String) (t : List RankedPrediction)
    (b : Int × Int × Int × Int) (c g th mg : ℚ) (hg : g < mg) :
    (decisionOf n t b c g th mg).authorized = false ∧
    RejReason.gap_too_small g mg ∈
      (decisionOf n t b c g th mg).rejection_reasons := by
  by_cases hc : c < th <;> simp [decisionOf, hc, hg]

theorem decisionOf_confidence (n : String) (t : List RankedPrediction)
    (b : Int × Int × Int × Int) (c g th mg : ℚ) :
    (decisionOf n t b c g th mg).confidence = c := rfl

theorem decisionOf_gap (n : String) (t : List RankedPrediction)
    (b : Int × Int × Int × Int) (c g th mg : ℚ) :
    (decisionOf n t b c g th mg).confidence_gap = g := rfl

theorem decisionOf_tops (n : String) (t : List RankedPrediction)
    (b : Int × Int × Int × Int) (c g th mg : ℚ) :
    (decisionOf n t b c g th mg).top_predictions = t := rfl

theorem decisionOf_name_of_authorized (n : String)
    (t : List RankedPrediction) (b : Int × Int × Int × Int) (c g th mg : ℚ)
    (h : (decisionOf n t b c g th mg).authorized = true) :
    (decisionOf n t b c g th mg).name = n := by
  by_cases hc : c < th <;> by_cases hg : g < mg <;>
    simp [decisionOf, hc, hg] at h ⊢

theorem getD_mem_of_lt {α : Type} (l : List α) (n : Nat) (d : α)
    (h : n < l.length) : l.getD n d ∈ l := by
  have he : l.getD n d = l[n] := by
    simp [List.getD_eq_getElem?_getD, List.getElem?_eq_getElem h]
  rw [he]
  exact List.getElem_mem h

/-! ### Claim theorems -/

/-- C1: every `AuthDecision` returned by `predict` has `authorized = true`
iff `rejection_reasons = [authorized]`; otherwise `authorized = false` and
`rejection_reasons` has exactly 1 or 2 entries (in particular it is never
empty). -/
theorem C1_authorized_iff_sentinel (labels : List String)
    (detected : Option ((Int × Int × Int × Int) × List ℚ)) (th mg : ℚ)
    (d : AuthDecision) (hpred : predict labels detected th mg = some d) :
    (d.authorized = true ↔ d.rejection_reasons = [RejReason.authorized]) ∧
    (d.authorized = false →
      d.rejection_reasons.length = 1 ∨ d.rejection_reasons.length = 2) := by
  match detected with
  | none =>
    simp only [predict, Option.some.injEq] at hpred
    subst hpred
    simp [noFaceDecision]
  | some (box, p) =>
    cases hTop : topIndices p with
    | nil => simp [predict, authorize, hTop] at hpred
    | cons i0 rest =>
      simp only [predict, authorize, hTop, Option.some.injEq] at hpred
      subst hpred
      exact decisionOf_authorized_iff _ _ _ _ _ _ _

/-- C1 witness at a concrete input. -/
theorem C1_authorized_iff_sentinel_witness :
    predict ["Alice", "Bob"]
        (some ((0, 0, 60, 60), [Rat.mk' 9 10, Rat.mk' 1 10]))
        (Rat.mk' 4 5) (Rat.mk' 1 5) = some
      ⟨"Alice", Rat.mk' 9 10, Rat.mk' 4 5, true, some (0, 0, 60, 60), true,
        [⟨"Alice", Rat.mk' 9 10⟩, ⟨"Bob", Rat.mk' 1 10⟩],
        [RejReason.authorized]⟩ ∧
    ((AuthDecision.mk "Alice" (Rat.mk' 9 10) (Rat.mk' 4 5) true
        (some (0, 0, 60, 60)) true
        [⟨"Alice", Rat.mk' 9 10⟩, ⟨"Bob", Rat.mk' 1 10⟩]
        [RejReason.authorized]).authorized = true ↔
      (AuthDecision.mk "Alice" (Rat.mk' 9 10) (Rat.mk' 4 5) true
        (some (0, 0, 60, 60)) true
        [⟨"Alice", Rat.mk' 9 10⟩, ⟨"Bob", Rat.mk' 1 10⟩]
        [RejReason.authorized]).rejection_reasons =
          [RejReason.authorized]) :=
  ⟨by with_unfolding_all decide,
    (C1_authorized_iff_sentinel ["Alice", "Bob"]
      (some ((0, 0, 60, 60), [Rat.mk' 9 10, Rat.mk' 1 10]))
      (Rat.mk' 4 5) (Rat.mk' 1 5) _
      (by with_unfolding_all decide)).1⟩

/-- C2: for a no-face frame, `predict` returns the short-circuit decision
exactly: sentinel name, zero confidence and gap, `face_detected = false`,
no box, unauthorized, empty `top_predictions`, and
`rejection_reasons = [no_face_detected]`. -/
theorem C2_no_face_short_circuit (labels : List String) (th mg : ℚ) :
    predict labels none th mg = some
      { name := "No se detectó rostro"
        confidence := 0
        confidence_gap := 0
        face_detected := false
        face_box := none
        authorized := false
        top_predictions := []
        rejection_reasons := [RejReason.no_face_detected] } := rfl

/-- C4: if the top-1 probability meets the threshold but the gap between
top-1 and top-2 is below `min_confidence_gap`, the decision is unauthorized
with exactly one rejection reason: the gap-too-small marker (carrying the
observed gap and required minimum), and no confidence-too-low marker. -/
theorem C4_gap_only_rejection (labels : List String)
    (box : Int × Int × Int × Int) (p : List ℚ) (th mg : ℚ)
    (d : AuthDecision)
    (hpred : predict labels (some (box, p)) th mg = some d)
    (hconf : th ≤ d.confidence) (hgap : d.confidence_gap < mg) :
    d.authorized = false ∧
    d.rejection_reasons = [RejReason.gap_too_small d.confidence_gap mg] := by
  cases hTop : topIndices p with
  | nil => simp [predict, authorize, hTop] at hpred
  | cons i0 rest =>
    simp only [predict, authorize, hTop, Option.some.injEq] at hpred
    subst hpred
    exact decisionOf_gap_only _ _ _ _ _ _ _ hconf hgap

/-- C4 witness: distribution (0.80, 0.65), threshold 0.80, min gap 0.20 —
confidence meets the threshold, the 0.15 gap does not. -/
theorem C4_gap_only_rejection_witness :
    predict ["Alice", "Bob"]
        (some ((0, 0, 60, 60), [Rat.mk' 4 5, Rat.mk' 13 20]))
        (Rat.mk' 4 5) (Rat.mk' 1 5) = some
      ⟨"Desconocido", Rat.mk' 4 5, Rat.mk' 3 20, true, some (0, 0, 60, 60),
        false, [⟨"Alice", Rat.mk' 4 5⟩, ⟨"Bob", Rat.mk' 13 20⟩],
        [RejReason.gap_too_small (Rat.mk' 3 20) (Rat.mk' 1 5)]⟩ ∧
    ((AuthDecision.mk "Desconocido" (Rat.mk' 4 5) (Rat.mk' 3 20) true
        (some (0, 0, 60, 60)) false
        [⟨"Alice", Rat.mk' 4 5⟩, ⟨"Bob", Rat.mk' 13 20⟩]
        [RejReason.gap_too_small (Rat.mk' 3 20) (Rat.mk' 1 5)]).authorized
          = false ∧
      (AuthDecision.mk "Desconocido" (Rat.mk' 4 5) (Rat.mk' 3 20) true
        (some (0, 0, 60, 60)) false
        [⟨"Alice", Rat.mk' 4 5⟩, ⟨"Bob", Rat.mk' 13 20⟩]
        [RejReason.gap_too_small (Rat.mk' 3 20) (Rat.mk' 1 5)]
        ).rejection_reasons =
          [RejReason.gap_too_small (Rat.mk' 3 20) (Rat.mk' 1 5)]) :=
  ⟨by with_unfolding_all decide,
    C4_gap_only_rejection ["Alice", "Bob"] (0, 0, 60, 60)
      [Rat.mk' 4 5, Rat.mk' 13 20] (Rat.mk' 4 5) (Rat.mk' 1 5) _
      (by with_unfolding_all decide) (by with_unfolding_all decide)
      (by with_unfolding_all decide)⟩

/-- C9: with exactly one configured identity label (a one-entry
distribution), `confidence_gap` degenerates to `confidence` itself. -/
theorem C9_single_label_gap (labels : List String)
    (box : Int × Int × Int × Int) (p : List ℚ) (th mg : ℚ)
    (d : AuthDecision) (hone : p.length = 1)
    (hpred : predict labels (some (box, p)) th mg = some d) :
    d.confidence_gap = d.confidence := by
  match p, hone with
  | [q], _ =>
    have hTop : topIndices [q] = [0] := rfl
    simp only [predict, authorize, hTop, Option.some.injEq] at hpred
    subst hpred
    rfl

/-- C9 witness at the one-label distribution `[0.9]`. -/
theorem C9_single_label_gap_witness :
    ([Rat.mk' 9 10] : List ℚ).length = 1 ∧
    predict ["Alice"] (some ((0, 0, 60, 60), [Rat.mk' 9 10]))
        (Rat.mk' 4 5) (Rat.mk' 1 5) = some
      ⟨"Alice", Rat.mk' 9 10, Rat.mk' 9 10, true, some (0, 0, 60, 60), true,
        [⟨"Alice", Rat.mk' 9 10⟩], [RejReason.authorized]⟩ ∧
    (AuthDecision.mk "Alice" (Rat.mk' 9 10) (Rat.mk' 9 10) true
        (some (0, 0, 60, 60)) true [⟨"Alice", Rat.mk' 9 10⟩]
        [RejReason.authorized]).confidence_gap =
      (AuthDecision.mk "Alice" (Rat.mk' 9 10) (Rat.mk' 9 10) true
        (some (0, 0, 60, 60)) true [⟨"Alice", Rat.mk' 9 10⟩]
        [RejReason.authorized]).confidence :=
  ⟨rfl, by with_unfolding_all decide,
    C9_single_label_gap ["Alice"] (0, 0, 60, 60) [Rat.mk' 9 10]
      (Rat.mk' 4 5) (Rat.mk' 1 5) _ rfl (by with_unfolding_all decide)⟩

/-- C5 counterexample: the claim says an out-of-range threshold must make
the system fail fast at construction, before any request is served.  In
the code neither `__init__` (which takes only the two model paths) nor
`predict` validates the thresholds: a `predict` call with threshold `2`
(outside `[0,1]`) is served normally and returns an ordinary unauthorized
decision. -/
theorem C5_counterexample :
    ¬ ((2 : ℚ) ≤ 1) ∧
    predict ["Alice"] (some ((0, 0, 60, 60), [Rat.mk' 9 10])) 2
        (Rat.mk' 1 5) = some
      ⟨"Desconocido", Rat.mk' 9 10, Rat.mk' 9 10, true, some (0, 0, 60, 60),
        false, [⟨"Alice", Rat.mk' 9 10⟩],
        [RejReason.confidence_too_low (Rat.mk' 9 10) 2]⟩ := by
  exact ⟨by norm_num, by with_unfolding_all decide⟩

/-- C5 amended: the code performs no range validation of `threshold` or
`min_confidence_gap` anywhere — they are per-call parameters of `predict`,
and for every value of them (out-of-range values included) a frame with a
detected face and a nonempty label distribution is served a normal
decision. -/
theorem C5_no_validation (labels : List String)
    (box : Int × Int × Int × Int) (p : List ℚ) (th mg : ℚ)
    (hp : p ≠ []) :
    (predict labels (some (box, p)) th mg).isSome = true := by
  cases hTop : topIndices p with
  | nil => exact absurd hTop (topIndices_ne_nil p hp)
  | cons i0 rest => simp [predict, authorize, hTop]

/-- C5 witness: threshold 2 and min gap -1, both outside [0,1], are served. -/
theorem C5_no_validation_witness :
    ([Rat.mk' 9 10] : List ℚ) ≠ [] ∧
    (predict ["Alice"] (some ((0, 0, 60, 60), [Rat.mk' 9 10]))
      2 (-1)).isSome = true :=
  ⟨by simp,
    C5_no_validation ["Alice"] (0, 0, 60, 60) [Rat.mk' 9 10] 2 (-1)
      (by simp)⟩

/-- C6 counterexample: the claim says the continuous-verification flow
does not apply the confidence-gap check.  But `verify_face_stream` calls
`predict(image, threshold=0.75)` leaving `min_confidence_gap` at its
default `0.20`, so a distribution (0.80, 0.65) — confidence 0.80 ≥ 0.75 —
is rejected by the verification endpoint purely on account of its 0.15
confidence gap. -/
theorem C6_counterexample :
    verify_face_stream_predict ["Alice", "Bob"]
        (some ((0, 0, 60, 60), [Rat.mk' 4 5, Rat.mk' 13 20])) = some
      ⟨"Desconocido", Rat.mk' 4 5, Rat.mk' 3 20, true, some (0, 0, 60, 60),
        false, [⟨"Alice", Rat.mk' 4 5⟩, ⟨"Bob", Rat.mk' 13 20⟩],
        [RejReason.gap_too_small (Rat.mk' 3 20) (Rat.mk' 1 5)]⟩ := by
  with_unfolding_all decide

/-- C6 amended: the verification flow applies the looser 0.75 threshold
but keeps the default minimum confidence gap 0.20, so it can reject on
account of a small gap: whenever a face was detected and the gap is below
0.20, the verification decision is unauthorized with the gap marker
recorded. -/
theorem C6_verify_stream_gap_check_applies (labels : List String)
    (detected : Option ((Int × Int × Int × Int) × List ℚ))
    (d : AuthDecision)
    (hpred : verify_face_stream_predict labels detected = some d)
    (hface : d.face_detected = true)
    (hgap : d.confidence_gap < 20/100) :
    d.authorized = false ∧
    RejReason.gap_too_small d.confidence_gap (20/100) ∈
      d.rejection_reasons := by
  match detected with
  | none =>
    simp only [verify_face_stream_predict, predict, Option.some.injEq]
      at hpred
    subst hpred
    simp [noFaceDecision] at hface
  | some (box, p) =>
    cases hTop : topIndices p with
    | nil =>
      simp [verify_face_stream_predict, predict, authorize, hTop] at hpred
    | cons i0 rest =>
      simp only [verify_face_stream_predict, predict, authorize, hTop,
        Option.some.injEq] at hpred
      subst hpred
      exact decisionOf_gap_reject _ _ _ _ _ _ _ hgap

/-- C6 witness at the counterexample distribution. -/
theorem C6_verify_stream_gap_check_applies_witness :
    verify_face_stream_predict ["Alice", "Bob"]
        (some ((0, 0, 60, 60), [Rat.mk' 4 5, Rat.mk' 13 20])) = some
      ⟨"Desconocido", Rat.mk' 4 5, Rat.mk' 3 20, true, some (0, 0, 60, 60),
        false, [⟨"Alice", Rat.mk' 4 5⟩, ⟨"Bob", Rat.mk' 13 20⟩],
        [RejReason.gap_too_small (Rat.mk' 3 20) (Rat.mk' 1 5)]⟩ ∧
    ((AuthDecision.mk "Desconocido" (Rat.mk' 4 5) (Rat.mk' 3 20) true
        (some (0, 0, 60, 60)) false
        [⟨"Alice", Rat.mk' 4 5⟩, ⟨"Bob", Rat.mk' 13 20⟩]
        [RejReason.gap_too_small (Rat.mk' 3 20) (Rat.mk' 1 5)]).authorized
          = false ∧
      RejReason.gap_too_small
        (AuthDecision.mk "Desconocido" (Rat.mk' 4 5) (Rat.mk' 3 20) true
          (some (0, 0, 60, 60)) false
          [⟨"Alice", Rat.mk' 4 5⟩, ⟨"Bob", Rat.mk' 13 20⟩]
          [RejReason.gap_too_small (Rat.mk' 3 20)
            (Rat.mk' 1 5)]).confidence_gap (20/100) ∈
        (AuthDecision.mk "Desconocido" (Rat.mk' 4 5) (Rat.mk' 3 20) true
          (some (0, 0, 60, 60)) false
          [⟨"Alice", Rat.mk' 4 5⟩, ⟨"Bob", Rat.mk' 13 20⟩]
          [RejReason.gap_too_small (Rat.mk' 3 20)
            (Rat.mk' 1 5)]).rejection_reasons) :=
  ⟨by with_unfolding_all decide,
    C6_verify_stream_gap_check_applies ["Alice", "Bob"]
      (some ((0, 0, 60, 60), [Rat.mk' 4 5, Rat.mk' 13 20])) _
      (by with_unfolding_all decide) (by with_unfolding_all decide)
      (by with_unfolding_all decide)⟩

/-- C3 counterexample: the claim says ties between equal probabilities are
broken by the label's registration order (ascending label-encoder index).
On the two-way tie `[0.5, 0.5]` the code — `np.argsort` ascending (stable)
then `[-3:][::-1]` — lists index 1 ("Bob") before index 0 ("Alice"): ties
come out in *descending* index order, the reverse of registration order. -/
theorem C3_counterexample :
    Option.map AuthDecision.top_predictions
        (predict ["Alice", "Bob"]
          (some ((0, 0, 60, 60), [Rat.mk' 1 2, Rat.mk' 1 2]))
          (Rat.mk' 4 5) (Rat.mk' 1 5)) =
      some [⟨"Bob", Rat.mk' 1 2⟩, ⟨"Alice", Rat.mk' 1 2⟩] ∧
    ([⟨"Bob", Rat.mk' 1 2⟩, ⟨"Alice", Rat.mk' 1 2⟩] :
        List RankedPrediction) ≠
      [⟨"Alice", Rat.mk' 1 2⟩, ⟨"Bob", Rat.mk' 1 2⟩] :=
  ⟨by with_unfolding_all decide, by decide⟩

/-- C3 amended: `top_predictions` is sorted descending by probability, has
length `min 3 |labels|` (hence ≤ 3 and ≤ |labels|), and ties between equal
probabilities are broken by *descending* label index — the reverse of the
registration order; being a pure function of the distribution, repeated
calls on identical inputs agree. -/
theorem C3_top_predictions_sorted (labels : List String)
    (box : Int × Int × Int × Int) (p : List ℚ) (th mg : ℚ)
    (d : AuthDecision) (hlen : p.length = labels.length)
    (hpred : predict labels (some (box, p)) th mg = some d) :
    d.top_predictions.length = min 3 labels.length ∧
    List.Pairwise (fun a b => b.confidence ≤ a.confidence)
      d.top_predictions ∧
    List.Pairwise
      (fun i j => p.getD j 0 < p.getD i 0 ∨
        (p.getD j 0 = p.getD i 0 ∧ j < i)) (topIndices p) := by
  cases hTop : topIndices p with
  | nil => simp [predict, authorize, hTop] at hpred
  | cons i0 rest =>
    simp only [predict, authorize, hTop, Option.some.injEq] at hpred
    subst hpred
    have hpair := topIndices_pairwise p
    rw [hTop] at hpair
    refine ⟨?_, ?_, hpair⟩
    · have h1 : (topIndices p).length = min 3 p.length := topIndices_length p
      rw [hTop] at h1
      simp only [decisionOf_tops, List.length_map, h1, hlen]
    · simp only [decisionOf_tops]
      rw [List.pairwise_map]
      refine hpair.imp ?_
      intro i j hr
      rcases hr with hlt | ⟨heq, _⟩
      · exact le_of_lt hlt
      · exact le_of_eq heq

/-- C3 witness at the distribution (0.9, 0.1). -/
theorem C3_top_predictions_sorted_witness :
    ([Rat.mk' 9 10, Rat.mk' 1 10] : List ℚ).length =
      (["Alice", "Bob"] : List String).length ∧
    ((AuthDecision.mk "Alice" (Rat.mk' 9 10) (Rat.mk' 4 5) true
        (some (0, 0, 60, 60)) true
        [⟨"Alice", Rat.mk' 9 10⟩, ⟨"Bob", Rat.mk' 1 10⟩]
        [RejReason.authorized]).top_predictions.length =
          min 3 (["Alice", "Bob"] : List String).length ∧
      List.Pairwise (fun a b => b.confidence ≤ a.confidence)
        (AuthDecision.mk "Alice" (Rat.mk' 9 10) (Rat.mk' 4 5) true
          (some (0, 0, 60, 60)) true
          [⟨"Alice", Rat.mk' 9 10⟩, ⟨"Bob", Rat.mk' 1 10⟩]
          [RejReason.authorized]).top_predictions ∧
      List.Pairwise
        (fun i j =>
          ([Rat.mk' 9 10, Rat.mk' 1 10] : List ℚ).getD j 0 <
              [Rat.mk' 9 10, Rat.mk' 1 10].getD i 0 ∨
            (([Rat.mk' 9 10, Rat.mk' 1 10] : List ℚ).getD j 0 =
                [Rat.mk' 9 10, Rat.mk' 1 10].getD i 0 ∧ j < i))
        (topIndices [Rat.mk' 9 10, Rat.mk' 1 10])) :=
  ⟨rfl,
    C3_top_predictions_sorted ["Alice", "Bob"] (0, 0, 60, 60)
      [Rat.mk' 9 10, Rat.mk' 1 10] (Rat.mk' 4 5) (Rat.mk' 1 5) _ rfl
      (by with_unfolding_all decide)⟩

/-- C7: the 20-pixel-padded crop is clamped to the frame: every row index
of the slice lies in `[0, frameH)` and every column index in
`[0, frameW)`, whatever the detected box. -/
theorem C7_crop_clamped (frameH frameW x y w h : Int) :
    (∀ r : Int, (cropBounds frameH frameW x y w h).top ≤ r →
        r < (cropBounds frameH frameW x y w h).bottom →
        0 ≤ r ∧ r < frameH) ∧
    (∀ c : Int, (cropBounds frameH frameW x y w h).left ≤ c →
        c < (cropBounds frameH frameW x y w h).right →
        0 ≤ c ∧ c < frameW) := by
  constructor
  · intro r h1 h2
    simp only [cropBounds] at h1 h2
    exact ⟨le_trans (le_max_left 0 _) h1,
      lt_of_lt_of_le h2 (min_le_left _ _)⟩
  · intro c h1 h2
    simp only [cropBounds] at h1 h2
    exact ⟨le_trans (le_max_left 0 _) h1,
      lt_of_lt_of_le h2 (min_le_left _ _)⟩

/-- C7 witness: a 480×640 frame with a box at the top-left corner: row 5
and column 7 of the clamped slice are inside the frame. -/
theorem C7_crop_clamped_witness :
    ((cropBounds 480 640 0 0 60 60).top ≤ 5 ∧
      5 < (cropBounds 480 640 0 0 60 60).bottom) ∧
    (0 ≤ (5 : Int) ∧ (5 : Int) < 480) :=
  ⟨⟨by decide, by decide⟩,
    (C7_crop_clamped 480 640 0 0 60 60).1 5 (by decide) (by decide)⟩

/-- C10: an authorized decision's `name` is the top-ranked label, an
element of the configured label list; hence as long as no enrolled label
equals the "Desconocido" sentinel, an authorized `name` never equals it
(making the session layer's extra `name != 'Desconocido'` guard
redundant in that case). -/
theorem C10_authorized_name (labels : List String)
    (box : Int × Int × Int × Int) (p : List ℚ) (th mg : ℚ)
    (d : AuthDecision) (hlen : p.length = labels.length)
    (hpred : predict labels (some (box, p)) th mg = some d)
    (hauth : d.authorized = true) :
    d.name = (d.top_predictions.headD ⟨"", 0⟩).cls ∧
    d.name ∈ labels ∧
    ("Desconocido" ∉ labels → d.name ≠ "Desconocido") := by
  cases hTop : topIndices p with
  | nil => simp [predict, authorize, hTop] at hpred
  | cons i0 rest =>
    simp only [predict, authorize, hTop, Option.some.injEq] at hpred
    subst hpred
    have hname := decisionOf_name_of_authorized _ _ _ _ _ _ _ hauth
    have hi0 : i0 < labels.length := by
      have := topIndices_mem_lt p i0
        (by rw [hTop]; exact List.mem_cons_self _ _)
      omega
    have hmem : labels.getD i0 "" ∈ labels := getD_mem_of_lt _ _ _ hi0
    refine ⟨?_, ?_, ?_⟩
    · rw [hname]; rfl
    · rw [hname]; exact hmem
    · intro hnot
      rw [hname]
      intro hEq
      exact hnot (hEq ▸ hmem)

/-- C10 witness at the authorized decision for (0.9, 0.1). -/
theorem C10_authorized_name_witness :
    (AuthDecision.mk "Alice" (Rat.mk' 9 10) (Rat.mk' 4 5) true
        (some (0, 0, 60, 60)) true
        [⟨"Alice", Rat.mk' 9 10⟩, ⟨"Bob", Rat.mk' 1 10⟩]
        [RejReason.authorized]).authorized = true ∧
    ((AuthDecision.mk "Alice" (Rat.mk' 9 10) (Rat.mk' 4 5) true
        (some (0, 0, 60, 60)) true
        [⟨"Alice", Rat.mk' 9 10⟩, ⟨"Bob", Rat.mk' 1 10⟩]
        [RejReason.authorized]).name =
      ((AuthDecision.mk "Alice" (Rat.mk' 9 10) (Rat.mk' 4 5) true
        (some (0, 0, 60, 60)) true
        [⟨"Alice", Rat.mk' 9 10⟩, ⟨"Bob", Rat.mk' 1 10⟩]
        [RejReason.authorized]).top_predictions.headD ⟨"", 0⟩).cls ∧
    (AuthDecision.mk "Alice" (Rat.mk' 9 10) (Rat.mk' 4 5) true
        (some (0, 0, 60, 60)) true
        [⟨"Alice", Rat.mk' 9 10⟩, ⟨"Bob", Rat.mk' 1 10⟩]
        [RejReason.authorized]).name ∈ ["Alice", "Bob"] ∧
    ("Desconocido" ∉ ["Alice", "Bob"] →
      (AuthDecision.mk "Alice" (Rat.mk' 9 10) (Rat.mk' 4 5) true
        (some (0, 0, 60, 60)) true
        [⟨"Alice", Rat.mk' 9 10⟩, ⟨"Bob", Rat.mk' 1 10⟩]
        [RejReason.authorized]).name ≠ "Desconocido")) :=
  ⟨by decide,
    C10_authorized_name ["Alice", "Bob"] (0, 0, 60, 60)
      [Rat.mk' 9 10, Rat.mk' 1 10] (Rat.mk' 4 5) (Rat.mk' 1 5) _ rfl
      (by with_unfolding_all decide) (by with_unfolding_all decide)⟩

/-! ### Heap facts for the renderer -/

theorem Heap.read_alloc_fst (h : Heap) (b : Buf) (i : Nat)
    (hi : i < h.bufs.length) : (h.alloc b).1.read i = h.read i := by
  simp [Heap.read, Heap.alloc, List.getD_eq_getElem?_getD,
    List.getElem?_append_left hi]

theorem Heap.read_write_ne (h : Heap) (j : Nat) (b : Buf) (i : Nat)
    (hne : j ≠ i) : (h.write j b).read i = h.read i := by
  simp [Heap.read, Heap.write, List.getD_eq_getElem?_getD,
    List.getElem?_set_ne hne]

/-- C8: `draw_result` never mutates the input frame buffer: it allocates a
fresh buffer (`image.copy()`), draws only on that copy, and returns it —
after the call the original frame's contents are unchanged and the
returned address is the fresh one, distinct from the input's, on both the
face-detected and no-face paths. -/
theorem C8_draw_result_no_mutation (prims : DrawPrims) (h : Heap)
    (image : Nat) (result : AuthDecision) (h' : Heap) (rid : Nat)
    (himg : image < h.bufs.length)
    (hdraw : draw_result prims h image result = some (h', rid)) :
    h'.read image = h.read image ∧ rid = h.bufs.length ∧ image ≠ rid := by
  have hne : h.bufs.length ≠ image := by omega
  cases hfd : result.face_detected with
  | false =>
    simp only [draw_result, Heap.alloc, hfd, if_pos rfl,
      Option.some.injEq, Prod.mk.injEq] at hdraw
    obtain ⟨rfl, rfl⟩ := hdraw
    refine ⟨?_, rfl, by omega⟩
    rw [Heap.read_write_ne _ _ _ _ hne]
    exact Heap.read_alloc_fst h _ image himg
  | true =>
    cases hfb : result.face_box with
    | none =>
      simp [draw_result, Heap.alloc, hfd, hfb] at hdraw
    | some b =>
      obtain ⟨x, y, w, hh⟩ := b
      simp only [draw_result, Heap.alloc, hfd, hfb, Bool.true_eq_false,
        if_neg (by simp : ¬(true = false)), Option.some.injEq,
        Prod.mk.injEq] at hdraw
      obtain ⟨rfl, rfl⟩ := hdraw
      refine ⟨?_, rfl, by omega⟩
      rw [Heap.read_write_ne _ _ _ _ hne, Heap.read_write_ne _ _ _ _ hne,
        Heap.read_write_ne _ _ _ _ hne, Heap.read_write_ne _ _ _ _ hne]
      exact Heap.read_alloc_fst h _ image himg

/-- C8 witness: a one-buffer heap, identity drawing primitives, and the
no-face decision: the original buffer `[1, 2, 3]` is intact and a fresh
buffer is returned. -/
theorem C8_draw_result_no_mutation_witness :
    (0 : Nat) < (Heap.mk [[1, 2, 3]]).bufs.length ∧
    draw_result
        ⟨fun _ _ _ b => b, fun _ _ _ _ b => b, fun _ => ""⟩
        (Heap.mk [[1, 2, 3]]) 0 noFaceDecision =
      some (Heap.mk [[1, 2, 3], [1, 2, 3]], 1) ∧
    ((Heap.mk [[1, 2, 3], [1, 2, 3]]).read 0 = (Heap.mk [[1, 2, 3]]).read 0 ∧
      (1 : Nat) = (Heap.mk [[1, 2, 3]]).bufs.length ∧ (0 : Nat) ≠ 1) :=
  ⟨by decide, by decide,
    C8_draw_result_no_mutation
      ⟨fun _ _ _ b => b, fun _ _ _ _ b => b, fun _ => ""⟩
      (Heap.mk [[1, 2, 3]]) 0 noFaceDecision _ _ (by decide) (by decide)⟩

end FaceRec
